import Mathlib

/-!
Shallow embedding of the `pipeline-debugger` core: the mutation catalog and
applier (`generator/mutations.py`), the synthesis preamble of
`generator/generate.py`, and the verification engine (`verifier/verify.py`)
with the environment tool runner of `environments/pipeline_debugger.py`.

Python strings are modelled as Lean `String` (lists of characters under the
hood); Python dicts keyed by strings are modelled as association lists with
Python's dict semantics (assignment overwrites, equality is key-set plus
per-key value equality).  Subprocess invocations and filesystem reads are
inputs of the model: an `Env` record provides the observable outcome of every
external interaction, and the embedded functions compute exactly what the
Python code computes from those observations.  Python exceptions are modelled
with `Except`.
-/

namespace PipelineDebugger

/-! ### String helpers (modelling Python `str` operations) -/

/-- Boolean test that `p` is a leading segment of `s` (Python `startswith`). -/
def leadMatch : List Char → List Char → Bool
  | [], _ => true
  | _ :: _, [] => false
  | p :: ps, c :: cs => p == c && leadMatch ps cs

/-- Python `find in s`: does `find` occur as a contiguous substring of `s`? -/
def occursSub (find : List Char) : List Char → Bool
  | [] => leadMatch find []
  | c :: rest => leadMatch find (c :: rest) || occursSub find rest

/-- Python `s.replace(find, repl, 1)`: replace the first occurrence only. -/
def replaceFirst (find repl : List Char) : List Char → List Char
  | [] => if leadMatch find [] then repl else []
  | c :: rest =>
    if leadMatch find (c :: rest) then repl ++ (c :: rest).drop find.length
    else c :: replaceFirst find repl rest

/-- Python `find in s` on `String`. -/
def strContains (s find : String) : Bool := occursSub find.data s.data

/-- Python `s.replace(find, repl, 1)` on `String`. -/
def strReplaceFirst (s find repl : String) : String :=
  String.mk (replaceFirst find.data repl.data s.data)

/-- Python `str.splitlines` (the line boundaries that occur in pytest
output: `\n`, `\r\n`, `\r`). -/
def splitlinesGo : List Char → List Char → List String
  | [], acc => if acc.isEmpty then [] else [String.mk acc.reverse]
  | '\r' :: '\n' :: rest, acc => String.mk acc.reverse :: splitlinesGo rest []
  | '\r' :: rest, acc => String.mk acc.reverse :: splitlinesGo rest []
  | '\n' :: rest, acc => String.mk acc.reverse :: splitlinesGo rest []
  | c :: rest, acc => splitlinesGo rest (c :: acc)

/-- Python `s.splitlines()`. -/
def splitlines (s : String) : List String := splitlinesGo s.data []

/-- ASCII decimal digit (regex `\d` on pytest output). -/
def isDigitCh (c : Char) : Bool := '0' ≤ c && c ≤ '9'

/-- ASCII whitespace (regex `\s` on pytest output). -/
def isSpaceCh (c : Char) : Bool :=
  c == ' ' || c == '\t' || c == '\n' || c == '\r' || c == '\x0b' || c == '\x0c'

/-- Numeric value of a digit run (Python `int` of a digit string). -/
def digitsToNat (ds : List Char) : Nat :=
  ds.foldl (fun acc c => 10 * acc + (c.toNat - '0'.toNat)) 0

/-! ### Dicts (Python `dict[str, str]`) as association lists -/

/-- Association list standing for a Python `dict[str, str]`. -/
abbrev Dict := List (String × String)

/-- Value stored at key `k`, if any. -/
def dlookup (m : Dict) (k : String) : Option String :=
  (m.find? (fun p => p.1 == k)).map (fun p => p.2)

/-- Python dict equality: same key set, same value at every key. -/
def dictEqb (a b : Dict) : Bool :=
  a.all (fun p => dlookup b p.1 == dlookup a p.1) &&
    b.all (fun p => dlookup a p.1 == dlookup b p.1)

/-- Python `d[k] = v`: overwrite the existing binding or append a new one. -/
def upsert (m : Dict) (k v : String) : Dict :=
  match m with
  | [] => [(k, v)]
  | (k', v') :: rest => if k' == k then (k, v) :: rest else (k', v') :: upsert rest k v

/-! ### verify.py: hash-map normalization -/

/-- Path normalization of `normalize_test_hashes`: backslashes become forward
slashes and a leading `tests/` segment is stripped. -/
def normalizeKey (raw : String) : String :=
  let key := String.mk (raw.data.map (fun c => if c == '\\' then '/' else c))
  if leadMatch "tests/".data key.data then String.mk (key.data.drop 6) else key

/-- `verify.normalize_test_hashes`: rebuild the map under normalized keys
(insertion order with overwrite, as a Python dict comprehension-free loop). -/
def normalize_test_hashes (hashes : Dict) : Dict :=
  hashes.foldl (fun acc p => upsert acc (normalizeKey p.1) p.2) []

/-! ### Process model -/

/-- Python `subprocess.CompletedProcess[str]` as captured by `run_command`. -/
structure CompletedProc where
  returncode : Int
  stdout : String
  stderr : String
deriving Repr, DecidableEq

/-- Observable behaviour of one spawned process: how long it runs
(`none` = never terminates), the completed result when it does terminate, and
the partial stdout a `TimeoutExpired` exception would carry. -/
structure ProcessBehavior where
  runtimeSeconds : Option Nat
  result : CompletedProc
  timeoutStdout : Option String
deriving Repr, DecidableEq

namespace Verify

/-- `verify.run_command`: calls `subprocess.run` with NO timeout argument, so
it returns the completed result when the process terminates and never returns
at all (modelled as `none`) when the process never terminates; it has no
timeout branch and never synthesizes an exit code. -/
def run_command (b : ProcessBehavior) : Option CompletedProc :=
  match b.runtimeSeconds with
  | some _ => some b.result
  | none => none

/-- `verify.collect_total_tests`: 0 when the collect-only invocation fails,
else the number of stdout lines containing `::`. -/
def collect_total_tests (collectResult : CompletedProc) : Nat :=
  if collectResult.returncode != 0 then 0
  else ((splitlines collectResult.stdout).filter (fun line => strContains line "::")).length

/-- Leftmost match of the regex `(\d+)\s+passed` starting exactly here:
a nonempty digit run, a nonempty whitespace run, then the literal `passed`. -/
def matchPassedAt (s : List Char) : Option Nat :=
  let ds := s.takeWhile isDigitCh
  if ds.isEmpty then none
  else
    let rest1 := s.drop ds.length
    let ws := rest1.takeWhile isSpaceCh
    if ws.isEmpty then none
    else if leadMatch "passed".data (rest1.drop ws.length) then some (digitsToNat ds)
    else none

/-- `re.search` scan: try every start position left to right. -/
def searchPassed : List Char → Option Nat
  | [] => none
  | c :: rest =>
    match matchPassedAt (c :: rest) with
    | some n => some n
    | none => searchPassed rest

/-- `verify.parse_tests_passed`: first `(\d+)\s+passed` match, else 0. -/
def parse_tests_passed (pytest_output : String) : Nat :=
  (searchPassed pytest_output.data).getD 0

end Verify

namespace EnvTool

/-- Payload returned by the environment tool `run_command` (the JSON dict). -/
structure ToolRunPayload where
  exit_code : Int
  stdout : String
  stderr : String
deriving Repr, DecidableEq

/-- `max(1, min(timeout_seconds, 120))`. -/
def clampTimeout (t : Int) : Int := max 1 (min t 120)

/-- Python `s[-8000:]`. -/
def takeLast (n : Nat) (s : String) : String :=
  String.mk (s.data.drop (s.data.length - n))

/-- Does the process outlive the (clamped) timeout? -/
def timesOut (b : ProcessBehavior) (timeout_seconds : Int) : Bool :=
  match b.runtimeSeconds with
  | none => true
  | some d => !((d : Int) ≤ clampTimeout timeout_seconds)

/-- `PipelineDebuggerEnv.run_command`: clamp the timeout to [1, 120]; on
`TimeoutExpired` return a synthetic payload with exit code -1, the partial
stdout (`exc.stdout or ""`), and a stderr naming the timeout; otherwise the
completed process's exit code with stdout/stderr truncated to the last 8000
characters. -/
def run_command (b : ProcessBehavior) (timeout_seconds : Int) : ToolRunPayload :=
  let t := clampTimeout timeout_seconds
  if timesOut b timeout_seconds then
    { exit_code := -1
      stdout := b.timeoutStdout.getD ""
      stderr := "timeout after " ++ toString t ++ "s" }
  else
    { exit_code := b.result.returncode
      stdout := takeLast 8000 b.result.stdout
      stderr := takeLast 8000 b.result.stderr }

end EnvTool

/-! ### Schema validator (`verify.validate_schema` over a pandas DataFrame) -/

/-- One cell of a loaded CSV column: missing (`NaN`/`None`), a numeric value
(together with its `astype(str)` rendering), or a string value. -/
inductive Cell
  | null
  | num (val : ℚ) (strRepr : String)
  | str (s : String)
deriving Repr, DecidableEq

/-- Is the cell a missing value (`isnull`)? -/
def cellIsNull : Cell → Bool
  | .null => true
  | _ => false

/-- Is the cell a string value (numeric comparison raises `TypeError`)? -/
def cellIsStr : Cell → Bool
  | .str _ => true
  | _ => false

/-- The cell's `astype(str)` rendering (missing cells are dropped first). -/
def cellStrRepr : Cell → String
  | .null => ""
  | .num _ r => r
  | .str s => s

/-- One pandas column: its storage dtype name (`str(series.dtype)`), the
`pd.api.types.is_*_dtype` classification flags of that storage dtype, and the
cell values. -/
structure Series where
  dtypeName : String
  isIntegerDtype : Bool
  isFloatDtype : Bool
  isBoolDtype : Bool
  isObjectDtype : Bool
  isStringDtype : Bool
  cells : List Cell
deriving Repr, DecidableEq

/-- A loaded DataFrame: named columns in order. -/
abbrev DataFrame := List (String × Series)

/-- `list(df.columns)`. -/
def dfColNames (df : DataFrame) : List String := df.map (fun p => p.1)

/-- `df[name]` when `name in df.columns`. -/
def dfGet (df : DataFrame) (name : String) : Option Series :=
  (df.find? (fun p => p.1 == name)).map (fun p => p.2)

/-- `verify.dtype_matches`. -/
def dtype_matches (series : Series) (expected : String) : Bool :=
  if expected == "int64" then series.isIntegerDtype
  else if expected == "float64" then series.isFloatDtype
  else if expected == "bool" then series.isBoolDtype
  else if expected == "object" then series.isObjectDtype || series.isStringDtype
  else series.dtypeName == expected

/-- One entry of `expected_schema.json`'s `columns` list
(`nullable` already carries the Python default `True` when absent). -/
structure ColumnSpec where
  name : String
  dtype : String
  nullable : Bool
deriving Repr, DecidableEq

/-- One entry of `expected_schema.json`'s `constraints` list.  `column` is
`constraint.get("column")`, hence optional; `min`/`max` are the parsed
numeric bounds (`float(...)`); `allowed_values` the declared string set. -/
structure ConstraintSpec where
  column : Option String
  min : Option ℚ
  max : Option ℚ
  allowed_values : Option (List String)
deriving Repr, DecidableEq

/-- The parsed content of a shape-conforming `expected_schema.json`. -/
structure SchemaJson where
  output_file : Option String
  columns : List ColumnSpec
  constraints : List ConstraintSpec
deriving Repr, DecidableEq

/-- Exceptions the verifier code can raise: `json.loads` on malformed JSON
(including shape errors of the parsed value), and `TypeError` from comparing
a string cell against a numeric bound. -/
inductive PyError
  | jsonDecode
  | typeError
deriving Repr, DecidableEq

/-- State of `expected_schema.json` on disk. -/
inductive SchemaFile
  | absent
  | malformed
  | parsed (schema : SchemaJson)
deriving DecidableEq

/-- State of `tests_hashes.json` on disk. -/
inductive HashesFile
  | absent
  | malformed
  | parsed (hashes : Dict)
deriving DecidableEq

/-- Result of `pd.read_csv` on the declared output file. -/
inductive CsvRead
  | missing
  | unreadable (msg : String)
  | table (df : DataFrame)
deriving DecidableEq

/-- Elementwise `cell < bound` (missing compares `False`, strings raise). -/
def cellNumLt (bound : ℚ) : Cell → Except PyError Bool
  | .null => .ok false
  | .num v _ => .ok (decide (v < bound))
  | .str _ => .error .typeError

/-- Elementwise `cell > bound` (missing compares `False`, strings raise). -/
def cellNumGt (bound : ℚ) : Cell → Except PyError Bool
  | .null => .ok false
  | .num v _ => .ok (decide (bound < v))
  | .str _ => .error .typeError

/-- `(series CMP bound).any()`: the whole comparison raises if any cell
raises, else reports whether any cell satisfies it. -/
def seriesCmpAny (cmp : Cell → Except PyError Bool) : List Cell → Except PyError Bool
  | [] => .ok false
  | c :: rest =>
    match cmp c with
    | .error e => .error e
    | .ok b =>
      match seriesCmpAny cmp rest with
      | .error e => .error e
      | .ok r => .ok (b || r)

/-- First-occurrence deduplication (`unique()` / building a `set`). -/
def dedupKeep : List String → List String
  | [] => []
  | x :: xs => if (dedupKeep xs).contains x then dedupKeep xs else x :: dedupKeep xs

/-- Insertion sort on strings (`sorted(...)` in the error message). -/
def insertSorted (x : String) : List String → List String
  | [] => [x]
  | y :: ys => if decide (x ≤ y) then x :: y :: ys else y :: insertSorted x ys

/-- Sorted rendering of a string set (`sorted(values - allowed)`). -/
def sortStrings (l : List String) : List String := l.foldr insertSorted []

/-- Errors of the per-column loop of `validate_schema`: a missing column
skips the dtype and nullability checks for that spec entry. -/
def perColumnErrors (df : DataFrame) : List ColumnSpec → List String
  | [] => []
  | spec :: rest =>
    match dfGet df spec.name with
    | none => ("missing column: " ++ spec.name) :: perColumnErrors df rest
    | some series =>
      (if !dtype_matches series spec.dtype then
        ["dtype mismatch for " ++ spec.name ++ ": expected " ++ spec.dtype ++
          ", got " ++ series.dtypeName]
      else []) ++
      (if !spec.nullable && series.cells.any cellIsNull then
        ["nullability violation for " ++ spec.name]
      else []) ++
      perColumnErrors df rest

/-- Errors of the constraints loop of `validate_schema`.  A constraint whose
`column` is absent from the DataFrame columns (or absent from the constraint
itself) is skipped entirely (`continue`). -/
def constraintErrors (df : DataFrame) : List ConstraintSpec → Except PyError (List String)
  | [] => .ok []
  | c :: rest =>
    match c.column with
    | none => constraintErrors df rest
    | some name =>
      match dfGet df name with
      | none => constraintErrors df rest
      | some series =>
        let minRes : Except PyError (List String) :=
          match c.min with
          | none => .ok []
          | some m =>
            match seriesCmpAny (cellNumLt m) series.cells with
            | .error e => .error e
            | .ok b =>
              .ok (if b then ["constraint violation: " ++ name ++ " below " ++ toString m] else [])
        match minRes with
        | .error e => .error e
        | .ok minErrs =>
          let maxRes : Except PyError (List String) :=
            match c.max with
            | none => .ok []
            | some m =>
              match seriesCmpAny (cellNumGt m) series.cells with
              | .error e => .error e
              | .ok b =>
                .ok (if b then ["constraint violation: " ++ name ++ " above " ++ toString m] else [])
          match maxRes with
          | .error e => .error e
          | .ok maxErrs =>
            let allowedErrs : List String :=
              match c.allowed_values with
              | none => []
              | some allowed =>
                let values := dedupKeep
                  ((series.cells.filter (fun cell => !cellIsNull cell)).map cellStrRepr)
                if values.all (fun v => allowed.contains v) then []
                else
                  ["constraint violation: " ++ name ++ " has unexpected values " ++
                    toString (sortStrings (values.filter (fun v => !allowed.contains v)))]
            match constraintErrors df rest with
            | .error e => .error e
            | .ok restErrs => .ok (minErrs ++ maxErrs ++ allowedErrs ++ restErrs)

/-- `verify.validate_schema`: short-circuit on missing schema, falsy
`output_file`, missing or unreadable output file; otherwise accumulate the
column-order error, the per-column errors, and the constraint errors.
Malformed schema JSON raises (json.loads is not wrapped). -/
def validate_schema (schemaFile : SchemaFile) (readCsv : String → CsvRead) :
    Except PyError (Bool × List String) :=
  match schemaFile with
  | .absent => .ok (false, ["expected_schema.json is missing"])
  | .malformed => .error .jsonDecode
  | .parsed schema =>
    match schema.output_file with
    | none => .ok (false, ["expected_schema.json missing output_file"])
    | some output_file =>
      if output_file == "" then .ok (false, ["expected_schema.json missing output_file"])
      else
        match readCsv output_file with
        | .missing => .ok (false, ["output file missing: " ++ output_file])
        | .unreadable msg => .ok (false, ["failed to read output file: " ++ msg])
        | .table df =>
          let orderErrs : List String :=
            if dfColNames df != schema.columns.map (fun s => s.name) then
              ["column mismatch: expected " ++ toString (schema.columns.map (fun s => s.name)) ++
                ", got " ++ toString (dfColNames df)]
            else []
          match constraintErrors df schema.constraints with
          | .error e => .error e
          | .ok cErrs =>
            let errors := orderErrs ++ perColumnErrors df schema.columns ++ cErrs
            .ok (errors.isEmpty, errors)

/-! ### Test-file integrity and the verification engine -/

/-- `verify.check_test_file_integrity` (the diagnostic `details` payload is
not modelled): both hash maps are normalized; if a persisted baseline exists
its normalization must equal the normalized pre map; malformed baseline JSON
raises. -/
def check_test_file_integrity (testsHashesFile : HashesFile)
    (pre_hashes post_hashes : Dict) : Except PyError Bool :=
  let normalized_pre := normalize_test_hashes pre_hashes
  let normalized_post := normalize_test_hashes post_hashes
  let unchanged := dictEqb normalized_pre normalized_post
  match testsHashesFile with
  | .absent => .ok unchanged
  | .malformed => .error .jsonDecode
  | .parsed expected => .ok (unchanged && dictEqb normalized_pre (normalize_test_hashes expected))

/-- Observable outcome of every external interaction one `verify_submission`
call performs, in program order: the two test-hash snapshots, the first
pipeline run, the collect-only and real pytest runs, the two JSON files, CSV
reads, and the outputs-hash snapshots around the second pipeline run. -/
structure Env where
  testDirExists : Bool
  preTestHashes : Dict
  postTestHashes : Dict
  run1 : CompletedProc
  collectResult : CompletedProc
  pytestResult : CompletedProc
  testsHashesFile : HashesFile
  schemaFile : SchemaFile
  readCsv : String → CsvRead
  outputsHashBefore : Dict
  run2 : CompletedProc
  outputsHashAfter : Dict

/-- The `VerificationResult` dataclass.  `all_tests_pass` and `schema_errors`
model the identically named entries of the `details` payload; the remaining
diagnostic entries of `details` are not modelled. -/
structure VerificationResult where
  passed : Bool
  run_pipeline_exit_zero : Bool
  tests_passed : Nat
  tests_total : Nat
  schema_valid : Bool
  deterministic : Bool
  test_files_untouched : Bool
  all_tests_pass : Bool
  schema_errors : List String
deriving Repr, DecidableEq

/-- `verify.verify_submission`, with each subprocess/filesystem observation
drawn from `env` in program order. -/
def verify_submission (env : Env) : Except PyError VerificationResult :=
  let pre_test_hashes := if env.testDirExists then env.preTestHashes else []
  let run_pipeline_exit_zero := env.run1.returncode == 0
  let tests_total := Verify.collect_total_tests env.collectResult
  let tests_passed := Verify.parse_tests_passed env.pytestResult.stdout
  let all_tests_pass := env.pytestResult.returncode == 0 && tests_passed == tests_total
  let post_test_hashes := if env.testDirExists then env.postTestHashes else []
  match check_test_file_integrity env.testsHashesFile pre_test_hashes post_test_hashes with
  | .error e => .error e
  | .ok test_files_untouched =>
    match validate_schema env.schemaFile env.readCsv with
    | .error e => .error e
    | .ok sv =>
      let deterministic := env.run2.returncode == 0 &&
        !env.outputsHashBefore.isEmpty &&
        dictEqb env.outputsHashBefore env.outputsHashAfter
      let passed := run_pipeline_exit_zero && all_tests_pass && test_files_untouched &&
        sv.1 && deterministic
      .ok { passed := passed
            run_pipeline_exit_zero := run_pipeline_exit_zero
            tests_passed := tests_passed
            tests_total := tests_total
            schema_valid := sv.1
            deterministic := deterministic
            test_files_untouched := test_files_untouched
            all_tests_pass := all_tests_pass
            schema_errors := sv.2 }

/-- `verify.main`: exit code of the command-line entry point
(`return 0 if result.passed else 1`); JSON output does not affect it. -/
def main (env : Env) : Except PyError Int :=
  match verify_submission env with
  | .error e => .error e
  | .ok r => .ok (if r.passed then 0 else 1)

/-! ### Mutation catalog and applier (`generator/mutations.py`) -/

/-- The `Mutation` dataclass. -/
structure Mutation where
  name : String
  category : String
  difficulty : String
  file_path : String
  find_text : String
  replace_text : String
  description : String
deriving Repr, DecidableEq

/-- The `MUTATIONS` registry, transcribed entry for entry. -/
def MUTATIONS : List (String × Mutation) :=
  [("schema_drift",
    { name := "schema_drift"
      category := "Schema drift"
      difficulty := "Easy"
      file_path := "pipeline/transform.py"
      find_text := "JOIN_KEY = \"customer_id\""
      replace_text := "JOIN_KEY = \"cust_id\""
      description := "Join key uses outdated upstream column name." }),
   ("type_coercion",
    { name := "type_coercion"
      category := "Type coercion"
      difficulty := "Easy"
      file_path := "pipeline/transform.py"
      find_text := "amount = float(raw[\"amount\"])"
      replace_text := "amount = int(float(raw[\"amount\"]))"
      description := "Amount is truncated to integer, corrupting numeric precision." }),
   ("join_logic",
    { name := "join_logic"
      category := "Join logic"
      difficulty := "Medium"
      file_path := "pipeline/transform.py"
      find_text := "merged = cleaned_df.merge(customers_df, how=JOIN_HOW, on=JOIN_KEY, sort=False)"
      replace_text := "merged = cleaned_df.merge(customers_df, how=JOIN_HOW, left_on=\"order_id\", right_on=\"customer_id\", sort=False)"
      description := "Rows are joined on the wrong key pair." }),
   ("aggregation",
    { name := "aggregation"
      category := "Aggregation"
      difficulty := "Medium"
      file_path := "pipeline/transform.py"
      find_text := "merged[\"discount\"] = (merged[\"amount\"] * discount_rates).round(2)"
      replace_text := "merged[\"discount\"] = (merged[\"amount\"] * 0.01).round(2)"
      description := "Discount ignores segment and applies a flat 1% rate." }),
   ("ordering_dependency",
    { name := "ordering_dependency"
      category := "Ordering dependency"
      difficulty := "Medium"
      file_path := "run_pipeline.py"
      find_text := "EXECUTE_TRANSFORM_BEFORE_LOAD = True"
      replace_text := "EXECUTE_TRANSFORM_BEFORE_LOAD = False"
      description := "Load step runs before transform output is materialized." }),
   ("silent_data_loss",
    { name := "silent_data_loss"
      category := "Silent data loss"
      difficulty := "Hard"
      file_path := "pipeline/transform.py"
      find_text := "DROP_VALID_ROWS_BELOW = None"
      replace_text := "DROP_VALID_ROWS_BELOW = 300.0"
      description := "Valid rows below threshold are silently dropped." }),
   ("config_env",
    { name := "config_env"
      category := "Config/env"
      difficulty := "Easy-Medium"
      file_path := "pipeline/extract.py"
      find_text := "ORDERS_DELIMITER = \",\""
      replace_text := "ORDERS_DELIMITER = \";\""
      description := "Reader delimiter is configured incorrectly." }),
   ("error_handling",
    { name := "error_handling"
      category := "Error handling"
      difficulty := "Medium"
      file_path := "pipeline/transform.py"
      find_text := "CRASH_ON_BAD_ROW = False"
      replace_text := "CRASH_ON_BAD_ROW = True"
      description := "Malformed row now crashes the entire pipeline." }),
   ("wrong_output_path",
    { name := "wrong_output_path"
      category := "Config/env"
      difficulty := "Easy"
      file_path := "pipeline/load.py"
      find_text := "OUTPUT_FILENAME = \"fact_orders.csv\""
      replace_text := "OUTPUT_FILENAME = \"fact_orders_final.csv\""
      description := "Load step writes output to an unexpected filename." })]

/-- `MUTATIONS[name]` (a missing key raises `KeyError`). -/
def catalogFind (name : String) : Option Mutation :=
  (MUTATIONS.find? (fun p => p.1 == name)).map (fun p => p.2)

/-- A file tree as a path-to-content association list. -/
abbrev FS := List (String × String)

/-- `target.read_text()` (a missing file raises `FileNotFoundError`). -/
def fsRead (fs : FS) (path : String) : Option String :=
  (fs.find? (fun p => p.1 == path)).map (fun p => p.2)

/-- `target.write_text(content)`: overwrite or create. -/
def fsWrite (fs : FS) (path content : String) : FS := upsert fs path content

/-- Exceptions `apply_mutations` can raise: `KeyError` on an unknown catalog
name, `FileNotFoundError` on a missing target file, and the distinguishable
`ValueError` (catalog/template mismatch) when `find_text` is absent. -/
inductive ApplyError
  | keyError (name : String)
  | fileNotFound (path : String)
  | catalogMismatch (name : String)
deriving Repr, DecidableEq

/-- `mutations.apply_mutations`, instrumented with the on-disk tree: returns
the tree as it stands when the call ends (normally or by exception), the
descriptors appended so far (the Python return value when no exception
occurred), and the exception if one was raised.  Each step replaces the first
occurrence of `find_text` and writes the file back before the next name is
processed. -/
def apply_mutations (fs : FS) : List String → FS × List Mutation × Option ApplyError
  | [] => (fs, [], none)
  | n :: rest =>
    match catalogFind n with
    | none => (fs, [], some (.keyError n))
    | some m =>
      match fsRead fs m.file_path with
      | none => (fs, [], some (.fileNotFound m.file_path))
      | some text =>
        if strContains text m.find_text then
          let out := apply_mutations
            (fsWrite fs m.file_path (strReplaceFirst text m.find_text m.replace_text)) rest
          (out.1, m :: out.2.1, out.2.2)
        else (fs, [], some (.catalogMismatch n))

/-! ### Synthesis preamble (`generator/generate.py`, lines 62-69) -/

/-- The fatal error `generate_instances` raises before synthesizing. -/
inductive GenError
  | templateTestsFailed
deriving Repr, DecidableEq

/-- The preamble's observations: the template's pytest result and the files
present under `template_dir/outputs`. -/
structure GenEnv where
  templateTestResult : CompletedProc
  templateOutputs : List String
deriving Repr, DecidableEq

/-- The preamble of `generate_instances`: raise `RuntimeError` when the
template's test suite fails; otherwise `shutil.rmtree(template_dir /
"outputs", ignore_errors=True)` deletes any pre-existing output artifacts and
synthesis proceeds.  Returns the files remaining under the template's outputs
directory. -/
def generatePreamble (env : GenEnv) : Except GenError (List String) :=
  if env.templateTestResult.returncode != 0 then .error .templateTestsFailed
  else .ok []

/-! ### Type-safety of constraint comparisons

`(series < bound)` / `(series > bound)` raise `TypeError` in pandas when the
column holds string values.  This decidable condition says no numeric
constraint of the schema targets a column with string cells; it is the
condition under which the constraints loop cannot raise. -/

/-- No `min`/`max` constraint targets a column containing string cells. -/
def constraintsTypeSafe (df : DataFrame) (cs : List ConstraintSpec) : Bool :=
  cs.all (fun c =>
    match c.column with
    | none => true
    | some name =>
      match dfGet df name with
      | none => true
      | some series =>
        (c.min.isNone && c.max.isNone) || series.cells.all (fun cell => !cellIsStr cell))

/-! ### Concrete data used by the witnesses and counterexamples -/

/-- A minimal submission environment: no test dir, failing processes, no
schema, no baseline, empty outputs. -/
def env0 : Env :=
  { testDirExists := false
    preTestHashes := []
    postTestHashes := []
    run1 := ⟨1, "", ""⟩
    collectResult := ⟨1, "", ""⟩
    pytestResult := ⟨1, "", ""⟩
    testsHashesFile := .absent
    schemaFile := .absent
    readCsv := fun _ => .missing
    outputsHashBefore := []
    run2 := ⟨1, "", ""⟩
    outputsHashAfter := [] }

/-- The verification result of `env0`. -/
def r0 : VerificationResult :=
  { passed := false
    run_pipeline_exit_zero := false
    tests_passed := 0
    tests_total := 0
    schema_valid := false
    deterministic := false
    test_files_untouched := true
    all_tests_pass := false
    schema_errors := ["expected_schema.json is missing"] }

/-- A submission whose baseline `tests_hashes.json` does not match the
current test files (the repair agent rewrote a test). -/
def env2 : Env :=
  { env0 with
    testDirExists := true
    preTestHashes := [("tests/test_pipeline.py", "bbb")]
    postTestHashes := [("tests/test_pipeline.py", "bbb")]
    testsHashesFile := .parsed [("tests/test_pipeline.py", "aaa")] }

/-- The verification result of `env2`. -/
def r2 : VerificationResult :=
  { r0 with test_files_untouched := false }

/-- A submission whose second pipeline run reproduces the outputs exactly. -/
def env3 : Env :=
  { env0 with
    run2 := ⟨0, "", ""⟩
    outputsHashBefore := [("fact_orders.csv", "h1")]
    outputsHashAfter := [("fact_orders.csv", "h1")] }

/-- The verification result of `env3`. -/
def r3 : VerificationResult :=
  { r0 with deterministic := true }

/-- A submission whose collect-only pass finds two tests and whose real
pytest run passes both. -/
def env4 : Env :=
  { env0 with
    collectResult := ⟨0, "tests/test_pipeline.py::test_a\ntests/test_pipeline.py::test_b\n", ""⟩
    pytestResult := ⟨0, "2 passed in 0.03s", ""⟩ }

/-- The verification result of `env4`. -/
def r4 : VerificationResult :=
  { r0 with tests_passed := 2, tests_total := 2, all_tests_pass := true }

/-- A submission whose `expected_schema.json` holds malformed JSON. -/
def envBadSchema : Env :=
  { env0 with schemaFile := .malformed }

/-- A process that never terminates. -/
def hangingProc : ProcessBehavior :=
  { runtimeSeconds := none, result := ⟨0, "", ""⟩, timeoutStdout := none }

/-- A process that needs 999 seconds, far beyond any allowed timeout. -/
def slowProc : ProcessBehavior :=
  { runtimeSeconds := some 999, result := ⟨0, "out", "err"⟩, timeoutStdout := some "partial out" }

/-- A template whose tests pass but which still carries an output artifact. -/
def genEnvC6 : GenEnv :=
  { templateTestResult := ⟨0, "", ""⟩, templateOutputs := ["fact_orders.csv"] }

/-- A template whose test suite fails. -/
def genEnvFailC6 : GenEnv :=
  { templateTestResult := ⟨1, "", "FAILED"⟩, templateOutputs := [] }

/-- An integer column with two values. -/
def seriesIntC10 : Series :=
  { dtypeName := "int64"
    isIntegerDtype := true
    isFloatDtype := false
    isBoolDtype := false
    isObjectDtype := false
    isStringDtype := false
    cells := [.num 1 "1", .num 2 "2"] }

/-- A one-column DataFrame. -/
def dfC10 : DataFrame := [("a", seriesIntC10)]

/-- A constraint whose `column` does not exist in `dfC10`. -/
def constraintC10 : ConstraintSpec := { column := some "zzz", min := some 0, max := none, allowed_values := none }

/-- A schema whose only constraint targets the absent column `zzz`. -/
def schemaC10 : SchemaJson :=
  { output_file := some "outputs/fact_orders.csv"
    columns := [{ name := "a", dtype := "int64", nullable := true }]
    constraints := [constraintC10] }

/-- CSV reads for the `schemaC10` submission. -/
def readCsvC10 : String → CsvRead :=
  fun p => if p == "outputs/fact_orders.csv" then .table dfC10 else .missing

/-- Catalog entry for a name, with a dummy fallback for unknown names. -/
def mutOf (n : String) : Mutation :=
  (catalogFind n).getD { name := "", category := "", difficulty := "", file_path := ""
                         find_text := "", replace_text := "", description := "" }

/-- A reduced template tree containing the anchor lines of the catalog. -/
def templateFS : FS :=
  [("pipeline/transform.py", "JOIN_KEY = \"customer_id\"\namount = float(raw[\"amount\"])\n"),
   ("run_pipeline.py", "EXECUTE_TRANSFORM_BEFORE_LOAD = True\n"),
   ("pipeline/extract.py", "ORDERS_DELIMITER = \",\"\n"),
   ("pipeline/load.py", "OUTPUT_FILENAME = \"fact_orders.csv\"\n")]

/-- A tree holding only the transform module, with the `schema_drift` anchor
but without the `type_coercion` anchor. -/
def fsC9 : FS :=
  [("pipeline/transform.py", "JOIN_KEY = \"customer_id\"\nJOIN_HOW = \"left\"\n")]

/-- The tree `fsC9` after the `schema_drift` mutation was applied. -/
def fsMidC9 : FS :=
  [("pipeline/transform.py", "JOIN_KEY = \"cust_id\"\nJOIN_HOW = \"left\"\n")]

/-! ## Theorems -/

/-- C1: for every submission, `passed` is the conjunction of the five
sub-check booleans (`run_pipeline_exit_zero`, `all_tests_pass`,
`test_files_untouched`, `schema_valid`, `deterministic`), and the
command-line entry point exits 0 iff `passed` and 1 otherwise. -/
theorem c1_passed_and_exit (env : Env) (r : VerificationResult)
    (h : verify_submission env = .ok r) :
    r.passed = (r.run_pipeline_exit_zero && r.all_tests_pass &&
      r.test_files_untouched && r.schema_valid && r.deterministic) ∧
    main env = .ok (if r.passed then 0 else 1) := by
  have hmain : main env = .ok (if r.passed then 0 else 1) := by
    unfold main
    rw [h]
  refine ⟨?_, hmain⟩
  cases hI : check_test_file_integrity env.testsHashesFile
      (if env.testDirExists then env.preTestHashes else [])
      (if env.testDirExists then env.postTestHashes else []) with
  | error e => simp [verify_submission, hI] at h
  | ok tfu =>
    cases hV : validate_schema env.schemaFile env.readCsv with
    | error e => simp [verify_submission, hI, hV] at h
    | ok sv =>
      simp only [verify_submission, hI, hV, Except.ok.injEq] at h
      subst h
      rfl

/-- C1 witness: evaluated on the concrete submission `env0`. -/
theorem c1_witness :
    verify_submission env0 = .ok r0 ∧
    (r0.passed = (r0.run_pipeline_exit_zero && r0.all_tests_pass &&
      r0.test_files_untouched && r0.schema_valid && r0.deterministic) ∧
    main env0 = .ok (if r0.passed then 0 else 1)) :=
  ⟨rfl, c1_passed_and_exit env0 r0 rfl⟩

/-- C2: when a persisted baseline `tests_hashes.json` exists and the
normalized pre-verification hash map of the test files differs from the
normalized baseline map, `verify_submission` reports
`test_files_untouched = false` and therefore `passed = false`, whatever the
other checks report. -/
theorem c2_baseline_mismatch_fails (env : Env) (baseline : Dict) (r : VerificationResult)
    (hfile : env.testsHashesFile = .parsed baseline)
    (hdiff : dictEqb (normalize_test_hashes (if env.testDirExists then env.preTestHashes else []))
      (normalize_test_hashes baseline) = false)
    (h : verify_submission env = .ok r) :
    r.test_files_untouched = false ∧ r.passed = false := by
  have hI : check_test_file_integrity env.testsHashesFile
      (if env.testDirExists then env.preTestHashes else [])
      (if env.testDirExists then env.postTestHashes else []) = .ok false := by
    unfold check_test_file_integrity
    rw [hfile]
    simp only [hdiff, Bool.and_false]
  cases hV : validate_schema env.schemaFile env.readCsv with
  | error e => simp [verify_submission, hI, hV] at h
  | ok sv =>
    simp only [verify_submission, hI, hV, Except.ok.injEq] at h
    subst h
    exact ⟨rfl, by simp⟩

/-- C2 witness: evaluated on `env2`, whose baseline digest differs from the
pre-verification digest of the same test file. -/
theorem c2_witness :
    verify_submission env2 = .ok r2 ∧
    (r2.test_files_untouched = false ∧ r2.passed = false) :=
  ⟨rfl, c2_baseline_mismatch_fails env2 [("tests/test_pipeline.py", "aaa")] r2 rfl rfl rfl⟩

/-- C3: `deterministic` is true iff the second pipeline run exited 0, the
outputs hash map taken before that run is non-empty, and the before/after
outputs hash maps are equal as mappings. -/
theorem c3_deterministic_iff (env : Env) (r : VerificationResult)
    (h : verify_submission env = .ok r) :
    (r.deterministic = true ↔
      (env.run2.returncode = 0 ∧ env.outputsHashBefore ≠ [] ∧
        dictEqb env.outputsHashBefore env.outputsHashAfter = true)) := by
  cases hI : check_test_file_integrity env.testsHashesFile
      (if env.testDirExists then env.preTestHashes else [])
      (if env.testDirExists then env.postTestHashes else []) with
  | error e => simp [verify_submission, hI] at h
  | ok tfu =>
    cases hV : validate_schema env.schemaFile env.readCsv with
    | error e => simp [verify_submission, hI, hV] at h
    | ok sv =>
      simp only [verify_submission, hI, hV, Except.ok.injEq] at h
      subst h
      simp [Bool.and_eq_true, List.isEmpty_iff, and_assoc]

/-- C3 witness: evaluated on `env3`, whose second run reproduces a non-empty
outputs tree exactly. -/
theorem c3_witness :
    verify_submission env3 = .ok r3 ∧
    (r3.deterministic = true ↔
      (env3.run2.returncode = 0 ∧ env3.outputsHashBefore ≠ [] ∧
        dictEqb env3.outputsHashBefore env3.outputsHashAfter = true)) :=
  ⟨rfl, c3_deterministic_iff env3 r3 rfl⟩

/-- C4: `tests_total` is recomputed from the collect-only invocation alone,
`tests_passed` is parsed from the real pytest run's stdout, and the
all-tests-pass sub-check holds iff that run exited 0 and the parsed count
equals the recomputed total. -/
theorem c4_tests_total_recomputed (env : Env) (r : VerificationResult)
    (h : verify_submission env = .ok r) :
    r.tests_total = Verify.collect_total_tests env.collectResult ∧
    r.tests_passed = Verify.parse_tests_passed env.pytestResult.stdout ∧
    (r.all_tests_pass = true ↔
      (env.pytestResult.returncode = 0 ∧ r.tests_passed = r.tests_total)) := by
  cases hI : check_test_file_integrity env.testsHashesFile
      (if env.testDirExists then env.preTestHashes else [])
      (if env.testDirExists then env.postTestHashes else []) with
  | error e => simp [verify_submission, hI] at h
  | ok tfu =>
    cases hV : validate_schema env.schemaFile env.readCsv with
    | error e => simp [verify_submission, hI, hV] at h
    | ok sv =>
      simp only [verify_submission, hI, hV, Except.ok.injEq] at h
      subst h
      refine ⟨rfl, rfl, ?_⟩
      simp [Bool.and_eq_true]

/-- C4 witness: evaluated on `env4`, whose collect-only pass enumerates two
tests and whose pytest run reports `2 passed`. -/
theorem c4_witness :
    verify_submission env4 = .ok r4 ∧
    (r4.tests_total = Verify.collect_total_tests env4.collectResult ∧
    r4.tests_passed = Verify.parse_tests_passed env4.pytestResult.stdout ∧
    (r4.all_tests_pass = true ↔
      (env4.pytestResult.returncode = 0 ∧ r4.tests_passed = r4.tests_total))) :=
  ⟨rfl, c4_tests_total_recomputed env4 r4 rfl⟩

/-- C6 counterexample: a template whose test suite passes but which still
carries a pre-existing output artifact does NOT abort the generation run —
the preamble deletes the artifact and returns normally, refuting the claim
that either failing condition is fatal. -/
theorem c6_counterexample :
    genEnvC6.templateTestResult.returncode = 0 ∧
    genEnvC6.templateOutputs ≠ [] ∧
    generatePreamble genEnvC6 = .ok [] :=
  ⟨rfl, by decide, rfl⟩

/-- C6 (amended): before synthesizing any instance the generation run checks
that the template passes its own test suite and aborts with a fatal error if
it does not; pre-existing output artifacts are not a fatal condition — they
are deleted (best-effort `rmtree`) and the run proceeds. -/
theorem c6_amended_template_gate (env : GenEnv) :
    (env.templateTestResult.returncode ≠ 0 →
      generatePreamble env = .error .templateTestsFailed) ∧
    (env.templateTestResult.returncode = 0 →
      generatePreamble env = .ok []) := by
  constructor <;> intro h <;> simp [generatePreamble, h]

/-- C6 witness: evaluated on a template with a failing test suite (abort)
and, via the second conjunct, on `genEnvC6` (no abort). -/
theorem c6_amended_witness :
    genEnvFailC6.templateTestResult.returncode ≠ 0 ∧
    generatePreamble genEnvFailC6 = .error .templateTestsFailed ∧
    generatePreamble genEnvC6 = .ok [] :=
  ⟨by decide, (c6_amended_template_gate genEnvFailC6).1 (by decide),
    (c6_amended_template_gate genEnvC6).2 rfl⟩

/-- C8 counterexample: the verifier's shared process-runner helper
(`verify.run_command`) passes no timeout to `subprocess.run`; on a process
that never terminates it produces no result at all — in particular no
synthetic exit code -1 — refuting the claim that the shared helper accepts a
timeout and synthesizes a -1 result. -/
theorem c8_counterexample : Verify.run_command hangingProc = none := rfl

/-- C8 (amended): the verifier's shared helper takes no timeout and yields
no result for a non-terminating process; it is the environment tool
`run_command` that accepts an optional timeout (clamped to [1, 120] seconds)
and, on timeout, returns a synthetic payload with exit code -1 and a stderr
message naming the timeout, while a completed process's exit code is passed
through unchanged — so its callers can tell the two apart. -/
theorem c8_amended_timeout_payload (b : ProcessBehavior) (t : Int) :
    (EnvTool.timesOut b t = true →
      EnvTool.run_command b t =
        { exit_code := -1
          stdout := b.timeoutStdout.getD ""
          stderr := "timeout after " ++ toString (EnvTool.clampTimeout t) ++ "s" }) ∧
    (EnvTool.timesOut b t = false →
      EnvTool.run_command b t =
        { exit_code := b.result.returncode
          stdout := EnvTool.takeLast 8000 b.result.stdout
          stderr := EnvTool.takeLast 8000 b.result.stderr }) := by
  constructor <;> intro h <;> simp [EnvTool.run_command, h]

/-- C8 witness: a process needing 999 seconds against a 30-second timeout
yields the synthetic payload; the same process against the verifier's
helper would complete, showing the exit code passes through unchanged. -/
theorem c8_amended_witness :
    EnvTool.timesOut slowProc 30 = true ∧
    EnvTool.run_command slowProc 30 =
      { exit_code := -1, stdout := "partial out", stderr := "timeout after 30s" } := by
  refine ⟨rfl, ?_⟩
  have h := (c8_amended_timeout_payload slowProc 30).1 rfl
  rw [h]
  rfl

/-- C10: a declared constraint whose column is not present in the produced
output is skipped without contributing an error, and `schema_valid` can be
true even though a constraint's column is entirely absent (shown on
`schemaC10`, whose only constraint targets the absent column `zzz`). -/
theorem c10_absent_constraint_column_skipped :
    (∀ (df : DataFrame) (c : ConstraintSpec) (rest : List ConstraintSpec),
      (∀ name, c.column = some name → dfGet df name = none) →
      constraintErrors df (c :: rest) = constraintErrors df rest) ∧
    validate_schema (.parsed schemaC10) readCsvC10 = .ok (true, []) := by
  constructor
  · intro df c rest habs
    cases hc : c.column with
    | none => simp only [constraintErrors, hc]
    | some name => simp only [constraintErrors, hc, habs name hc]
  · rfl

/-- Helper: `leadMatch p s` holds iff `s` literally starts with `p`. -/
theorem leadMatch_iff (p : List Char) : ∀ s, leadMatch p s = true ↔ ∃ t, s = p ++ t := by
  induction p with
  | nil =>
    intro s
    simp [leadMatch]
  | cons a ps ih =>
    intro s
    cases s with
    | nil => simp [leadMatch]
    | cons c cs =>
      simp only [leadMatch, Bool.and_eq_true, beq_iff_eq, List.cons_append,
        List.cons_eq_cons, ih]
      constructor
      · rintro ⟨rfl, t, rfl⟩
        exact ⟨t, rfl, rfl⟩
      · rintro ⟨t, rfl, rfl⟩
        exact ⟨rfl, t, rfl⟩

/-- Helper: `replaceFirst` rewrites exactly the first (leftmost) occurrence
of `find`: the text splits as `pre ++ find ++ post`, the result is
`pre ++ repl ++ post`, and no occurrence of `find` starts inside `pre`. -/
theorem replaceFirst_first_occurrence (find repl : List Char) :
    ∀ s : List Char, occursSub find s = true →
    ∃ pre post, s = pre ++ find ++ post ∧
      replaceFirst find repl s = pre ++ repl ++ post ∧
      ∀ i < pre.length, leadMatch find (s.drop i) = false := by
  intro s
  induction s with
  | nil =>
    intro h
    simp only [occursSub] at h
    obtain ⟨t, ht⟩ := (leadMatch_iff find []).mp h
    obtain ⟨hf, hts⟩ := List.append_eq_nil.mp ht.symm
    subst hf
    refine ⟨[], [], by simp, ?_, ?_⟩
    · simp [replaceFirst, leadMatch]
    · intro i hi
      simp at hi
  | cons c cs ih =>
    intro h
    by_cases hm : leadMatch find (c :: cs) = true
    · obtain ⟨t, ht⟩ := (leadMatch_iff find _).mp hm
      refine ⟨[], t, by simpa using ht, ?_, ?_⟩
      · simp only [replaceFirst, hm, if_true, List.nil_append]
        rw [ht]
        simp
      · intro i hi
        simp at hi
    · have hmf : leadMatch find (c :: cs) = false := by simpa using hm
      have h' : occursSub find cs = true := by
        simpa [occursSub, hmf] using h
      obtain ⟨pre, post, hs, hr, hmin⟩ := ih h'
      refine ⟨c :: pre, post, by simp [hs], ?_, ?_⟩
      · simp [replaceFirst, hmf, hr]
      · intro i hi
        cases i with
        | zero => simpa using hmf
        | succ j =>
          have hj : j < pre.length := by simpa using hi
          simpa using hmin j hj

/-- Helper: looking a key up after a dict assignment (`upsert`). -/
theorem dlookup_cons (k' v' : String) (rest : Dict) (q : String) :
    dlookup ((k', v') :: rest) q = if k' == q then some v' else dlookup rest q := by
  by_cases h : k' == q <;> simp [dlookup, List.find?_cons, h]

/-- Helper: `upsert` writes `v` at `k` and leaves every other key alone. -/
theorem dlookup_upsert (m : Dict) (k v q : String) :
    dlookup (upsert m k v) q = if k == q then some v else dlookup m q := by
  induction m with
  | nil => simp [upsert, dlookup_cons, dlookup]
  | cons p rest ih =>
    obtain ⟨k', v'⟩ := p
    by_cases h1 : k' = k
    · subst h1
      by_cases h2 : k' == q <;> simp [upsert, dlookup_cons, h2]
    · have h1b : (k' == k) = false := beq_eq_false_iff_ne.mpr h1
      simp only [upsert, h1b, Bool.false_eq_true, if_false, dlookup_cons, ih]
      by_cases h2 : k' = q
      · subst h2
        have h3 : (k == k') = false := beq_eq_false_iff_ne.mpr (fun he => h1 he.symm)
        simp [h3]
      · have h2b : (k' == q) = false := beq_eq_false_iff_ne.mpr h2
        simp [h2b]

/-- Helper: a write never removes a readable path. -/
theorem fsRead_fsWrite_isSome (fs : FS) (p c q : String)
    (h : (fsRead fs q).isSome = true) : (fsRead (fsWrite fs p c) q).isSome = true := by
  have hread : fsRead (fsWrite fs p c) q = dlookup (upsert fs p c) q := rfl
  rw [hread, dlookup_upsert]
  by_cases hpq : p == q <;> simp [hpq]
  · exact h

/-- Helper: behaviour of `apply_mutations` when every name is a catalog key
and every target file is readable: on success the applied descriptors line up
one-to-one with the names, and the only possible error is the
catalog-mismatch `ValueError`. -/
theorem apply_mutations_ok_spec : ∀ (names : List String) (fs : FS),
    (∀ n ∈ names, (catalogFind n).isSome = true) →
    (∀ n ∈ names, ∀ m, catalogFind n = some m → (fsRead fs m.file_path).isSome = true) →
    ((apply_mutations fs names).2.2 = none →
      List.Forall₂ (fun n m => catalogFind n = some m) names (apply_mutations fs names).2.1) ∧
    (∀ e, (apply_mutations fs names).2.2 = some e →
      ∃ n ∈ names, e = ApplyError.catalogMismatch n) := by
  intro names
  induction names with
  | nil =>
    intro fs _ _
    constructor
    · intro _
      exact List.Forall₂.nil
    · intro e he
      simp [apply_mutations] at he
  | cons n rest ih =>
    intro fs hkeys hfiles
    obtain ⟨m, hm⟩ := Option.isSome_iff_exists.mp (hkeys n (List.mem_cons_self n rest))
    obtain ⟨text, htext⟩ :=
      Option.isSome_iff_exists.mp (hfiles n (List.mem_cons_self n rest) m hm)
    by_cases hocc : strContains text m.find_text = true
    · have ihr := ih (fsWrite fs m.file_path (strReplaceFirst text m.find_text m.replace_text))
        (fun n' hn' => hkeys n' (List.mem_cons_of_mem _ hn'))
        (fun n' hn' m' hm' =>
          fsRead_fsWrite_isSome _ _ _ _ (hfiles n' (List.mem_cons_of_mem _ hn') m' hm'))
      constructor
      · intro hnone
        simp only [apply_mutations, hm, htext, hocc, if_true] at hnone ⊢
        exact List.Forall₂.cons hm (ihr.1 hnone)
      · intro e he
        simp only [apply_mutations, hm, htext, hocc, if_true] at he
        obtain ⟨n', hn', he'⟩ := ihr.2 e he
        exact ⟨n', List.mem_cons_of_mem _ hn', he'⟩
    · have hoccf : strContains text m.find_text = false := by simpa using hocc
      constructor
      · intro hnone
        simp [apply_mutations, hm, htext, hoccf] at hnone
      · intro e he
        simp only [apply_mutations, hm, htext, hoccf, Bool.false_eq_true, if_false,
          Option.some.injEq] at he
        exact ⟨n, List.mem_cons_self n rest, he.symm⟩

/-- Helper: running `apply_mutations` over `pre ++ suf` when `pre` succeeds
equals running `pre`, then `suf` on the intermediate tree, concatenating the
applied descriptors; no rollback happens between the two stages. -/
theorem apply_mutations_append_ok (suf : List String) :
    ∀ (pre : List String) (fs fsMid : FS) (ms : List Mutation),
    apply_mutations fs pre = (fsMid, ms, none) →
    apply_mutations fs (pre ++ suf) =
      ((apply_mutations fsMid suf).1, ms ++ (apply_mutations fsMid suf).2.1,
        (apply_mutations fsMid suf).2.2) := by
  intro pre
  induction pre with
  | nil =>
    intro fs fsMid ms h
    simp only [apply_mutations, Prod.mk.injEq] at h
    obtain ⟨rfl, hms, _⟩ := h
    subst hms
    simp [List.nil_append]
  | cons n pre' ih =>
    intro fs fsMid ms h
    cases hm : catalogFind n with
    | none => simp [apply_mutations, hm] at h
    | some m =>
      cases htext : fsRead fs m.file_path with
      | none => simp [apply_mutations, hm, htext] at h
      | some text =>
        by_cases hocc : strContains text m.find_text = true
        · have hstep : apply_mutations fs (n :: pre') =
              ((apply_mutations (fsWrite fs m.file_path
                  (strReplaceFirst text m.find_text m.replace_text)) pre').1,
                m :: (apply_mutations (fsWrite fs m.file_path
                  (strReplaceFirst text m.find_text m.replace_text)) pre').2.1,
                (apply_mutations (fsWrite fs m.file_path
                  (strReplaceFirst text m.find_text m.replace_text)) pre').2.2) := by
            simp [apply_mutations, hm, htext, hocc]
          rw [hstep] at h
          simp only [Prod.mk.injEq] at h
          obtain ⟨h1, h2, h3⟩ := h
          have hO : apply_mutations (fsWrite fs m.file_path
              (strReplaceFirst text m.find_text m.replace_text)) pre' =
              (fsMid, (apply_mutations (fsWrite fs m.file_path
                (strReplaceFirst text m.find_text m.replace_text)) pre').2.1, none) := by
            rw [← h1, ← h3]
          have ihr := ih (fsWrite fs m.file_path
            (strReplaceFirst text m.find_text m.replace_text)) fsMid _ hO
          have hstep2 : apply_mutations fs (n :: (pre' ++ suf)) =
              ((apply_mutations (fsWrite fs m.file_path
                  (strReplaceFirst text m.find_text m.replace_text)) (pre' ++ suf)).1,
                m :: (apply_mutations (fsWrite fs m.file_path
                  (strReplaceFirst text m.find_text m.replace_text)) (pre' ++ suf)).2.1,
                (apply_mutations (fsWrite fs m.file_path
                  (strReplaceFirst text m.find_text m.replace_text)) (pre' ++ suf)).2.2) := by
            simp [apply_mutations, hm, htext, hocc]
          rw [List.cons_append, hstep2, ihr, ← h2]
          simp
        · have hoccf : strContains text m.find_text = false := by simpa using hocc
          simp [apply_mutations, hm, htext, hoccf] at h

/-- C5: `apply_mutations` processes the names in order; under the standing
conditions that each name is a catalog key and each target file exists, a
missing `find_text` surfaces as the distinguishable catalog-mismatch error,
on success the returned descriptors correspond one-to-one, in order, to the
input names, and each step rewrites exactly the first occurrence of
`find_text` in the target file's current text. -/
theorem c5_apply_mutations_in_order (fs : FS) (names : List String)
    (hkeys : ∀ n ∈ names, (catalogFind n).isSome = true)
    (hfiles : ∀ n ∈ names, ∀ m, catalogFind n = some m →
      (fsRead fs m.file_path).isSome = true) :
    ((apply_mutations fs names).2.2 = none →
      List.Forall₂ (fun n m => catalogFind n = some m) names (apply_mutations fs names).2.1) ∧
    (∀ e, (apply_mutations fs names).2.2 = some e →
      ∃ n ∈ names, e = ApplyError.catalogMismatch n) ∧
    (∀ (text find repl : String), occursSub find.data text.data = true →
      ∃ pre post : List Char,
        text.data = pre ++ find.data ++ post ∧
        (strReplaceFirst text find repl).data = pre ++ repl.data ++ post ∧
        ∀ i < pre.length, leadMatch find.data (text.data.drop i) = false) := by
  refine ⟨(apply_mutations_ok_spec names fs hkeys hfiles).1,
    (apply_mutations_ok_spec names fs hkeys hfiles).2, ?_⟩
  intro text find repl h
  exact replaceFirst_first_occurrence find.data repl.data text.data h

/-- C5 witness: applying `schema_drift` then `ordering_dependency` to the
reduced template succeeds and returns their descriptors in order. -/
theorem c5_witness :
    (apply_mutations templateFS ["schema_drift", "ordering_dependency"]).2.2 = none ∧
    List.Forall₂ (fun n m => catalogFind n = some m)
      ["schema_drift", "ordering_dependency"]
      (apply_mutations templateFS ["schema_drift", "ordering_dependency"]).2.1 := by
  have hkeys : ∀ n ∈ ["schema_drift", "ordering_dependency"],
      (catalogFind n).isSome = true := by decide
  have hfiles : ∀ n ∈ ["schema_drift", "ordering_dependency"], ∀ m, catalogFind n = some m →
      (fsRead templateFS m.file_path).isSome = true := by
    intro n hn m hm
    have hn' : n = "schema_drift" ∨ n = "ordering_dependency" := by simpa using hn
    rcases hn' with rfl | rfl
    · have hm2 : (some (mutOf "schema_drift") : Option Mutation) = some m := hm
      obtain rfl : mutOf "schema_drift" = m := Option.some.inj hm2
      rfl
    · have hm2 : (some (mutOf "ordering_dependency") : Option Mutation) = some m := hm
      obtain rfl : mutOf "ordering_dependency" = m := Option.some.inj hm2
      rfl
  exact ⟨rfl,
    (c5_apply_mutations_in_order templateFS ["schema_drift", "ordering_dependency"]
      hkeys hfiles).1 rfl⟩

/-- C9: `apply_mutations` is not atomic on failure — when a prefix of the
names has been applied successfully and the next name's `find_text` is absent
from its target file, the call ends with the catalog-mismatch error while the
tree keeps all the writes of the prefix (it is the intermediate tree `fsMid`,
not the original `fs`), so a partially mutated tree is left behind whenever
the prefix changed anything. -/
theorem c9_partial_mutation_on_error (fs fsMid : FS) (pre : List String)
    (ms : List Mutation) (bad : String) (m : Mutation) (text : String)
    (hpre : apply_mutations fs pre = (fsMid, ms, none))
    (hbad : catalogFind bad = some m)
    (hread : fsRead fsMid m.file_path = some text)
    (habs : strContains text m.find_text = false) :
    apply_mutations fs (pre ++ [bad]) = (fsMid, ms, some (.catalogMismatch bad)) ∧
    (fsMid ≠ fs → (apply_mutations fs (pre ++ [bad])).1 ≠ fs) := by
  have hstep : apply_mutations fsMid [bad] = (fsMid, [], some (.catalogMismatch bad)) := by
    simp [apply_mutations, hbad, hread, habs]
  have hcomp := apply_mutations_append_ok [bad] pre fs fsMid ms hpre
  rw [hstep] at hcomp
  simp only [List.append_nil] at hcomp
  refine ⟨hcomp, ?_⟩
  intro hne
  rw [hcomp]
  exact hne

/-- C9 witness: after `schema_drift` rewrites the transform module, the
absent `type_coercion` anchor aborts with the mismatch error and leaves the
rewritten (not the original) tree on disk. -/
theorem c9_witness :
    apply_mutations fsC9 ["schema_drift"] = (fsMidC9, [mutOf "schema_drift"], none) ∧
    fsMidC9 ≠ fsC9 ∧
    apply_mutations fsC9 (["schema_drift"] ++ ["type_coercion"]) =
      (fsMidC9, [mutOf "schema_drift"], some (.catalogMismatch "type_coercion")) ∧
    (apply_mutations fsC9 (["schema_drift"] ++ ["type_coercion"])).1 ≠ fsC9 := by
  have hne : fsMidC9 ≠ fsC9 := by decide
  have h := c9_partial_mutation_on_error fsC9 fsMidC9 ["schema_drift"]
    [mutOf "schema_drift"] "type_coercion" (mutOf "type_coercion")
    "JOIN_KEY = \"cust_id\"\nJOIN_HOW = \"left\"\n" rfl rfl rfl rfl
  exact ⟨rfl, hne, h.1, h.2 hne⟩

/-- Helper: `cell < bound` cannot raise on a non-string cell. -/
theorem cellNumLt_ok (m : ℚ) (cell : Cell) (h : cellIsStr cell = false) :
    ∃ b, cellNumLt m cell = .ok b := by
  cases cell with
  | null => exact ⟨false, rfl⟩
  | num v r => exact ⟨decide (v < m), rfl⟩
  | str s => simp [cellIsStr] at h

/-- Helper: `cell > bound` cannot raise on a non-string cell. -/
theorem cellNumGt_ok (m : ℚ) (cell : Cell) (h : cellIsStr cell = false) :
    ∃ b, cellNumGt m cell = .ok b := by
  cases cell with
  | null => exact ⟨false, rfl⟩
  | num v r => exact ⟨decide (m < v), rfl⟩
  | str s => simp [cellIsStr] at h

/-- Helper: an elementwise comparison succeeds when every cell succeeds. -/
theorem seriesCmpAny_ok (cmp : Cell → Except PyError Bool) :
    ∀ cells : List Cell, (∀ cell ∈ cells, ∃ b, cmp cell = .ok b) →
    ∃ b, seriesCmpAny cmp cells = .ok b := by
  intro cells
  induction cells with
  | nil =>
    intro _
    exact ⟨false, rfl⟩
  | cons c rest ih =>
    intro h
    obtain ⟨b, hb⟩ := h c (List.mem_cons_self c rest)
    obtain ⟨br, hbr⟩ := ih (fun cell hc => h cell (List.mem_cons_of_mem _ hc))
    exact ⟨b || br, by simp only [seriesCmpAny, hb, hbr]⟩

/-- Helper: the constraints loop cannot raise when no numeric constraint
targets a column holding string cells. -/
theorem constraintErrors_ok_of_safe (df : DataFrame) : ∀ cs : List ConstraintSpec,
    constraintsTypeSafe df cs = true → ∃ errs, constraintErrors df cs = .ok errs := by
  intro cs
  induction cs with
  | nil =>
    intro _
    exact ⟨[], rfl⟩
  | cons c rest ih =>
    intro hsafe
    rw [constraintsTypeSafe, List.all_cons, Bool.and_eq_true] at hsafe
    obtain ⟨hc, hrest⟩ := hsafe
    obtain ⟨errs, herrs⟩ := ih hrest
    cases hcol : c.column with
    | none =>
      refine ⟨errs, ?_⟩
      simp only [constraintErrors, hcol]
      exact herrs
    | some name =>
      cases hdf : dfGet df name with
      | none =>
        refine ⟨errs, ?_⟩
        simp only [constraintErrors, hcol, hdf]
        exact herrs
      | some series =>
        simp only [hcol, hdf] at hc
        have hc' : (c.min.isNone && c.max.isNone) = true ∨
            series.cells.all (fun cell => !cellIsStr cell) = true := by
          rw [← Bool.or_eq_true]
          exact hc
        cases hmin : c.min with
        | none =>
          cases hmax : c.max with
          | none =>
            simp only [constraintErrors, hcol, hdf, hmin, hmax, herrs]
            exact ⟨_, rfl⟩
          | some m =>
            have hall : series.cells.all (fun cell => !cellIsStr cell) = true := by
              rcases hc' with h | h
              · rw [hmax] at h
                simp at h
              · exact h
            obtain ⟨b2, hb2⟩ := seriesCmpAny_ok (cellNumGt m) series.cells
              (fun cell hcell => cellNumGt_ok m cell (by
                have := List.all_eq_true.mp hall cell hcell
                simpa using this))
            simp only [constraintErrors, hcol, hdf, hmin, hmax, hb2, herrs]
            exact ⟨_, rfl⟩
        | some m =>
          have hall : series.cells.all (fun cell => !cellIsStr cell) = true := by
            rcases hc' with h | h
            · rw [hmin] at h
              simp at h
            · exact h
          obtain ⟨b1, hb1⟩ := seriesCmpAny_ok (cellNumLt m) series.cells
            (fun cell hcell => cellNumLt_ok m cell (by
              have := List.all_eq_true.mp hall cell hcell
              simpa using this))
          cases hmax : c.max with
          | none =>
            simp only [constraintErrors, hcol, hdf, hmin, hmax, hb1, herrs]
            exact ⟨_, rfl⟩
          | some m2 =>
            obtain ⟨b2, hb2⟩ := seriesCmpAny_ok (cellNumGt m2) series.cells
              (fun cell hcell => cellNumGt_ok m2 cell (by
                have := List.all_eq_true.mp hall cell hcell
                simpa using this))
            simp only [constraintErrors, hcol, hdf, hmin, hmax, hb1, hb2, herrs]
            exact ⟨_, rfl⟩

/-- Helper: `validate_schema` can raise only on a malformed schema file or an
unsafe constraint comparison. -/
theorem validate_schema_ok_of (schemaFile : SchemaFile) (readCsv : String → CsvRead)
    (h1 : schemaFile ≠ .malformed)
    (h3 : ∀ schema f df, schemaFile = .parsed schema → schema.output_file = some f →
      readCsv f = .table df → constraintsTypeSafe df schema.constraints = true) :
    ∃ res, validate_schema schemaFile readCsv = .ok res := by
  cases schemaFile with
  | absent => exact ⟨_, rfl⟩
  | malformed => exact absurd rfl h1
  | parsed schema =>
    cases hof : schema.output_file with
    | none =>
      simp only [validate_schema, hof]
      exact ⟨_, rfl⟩
    | some f =>
      by_cases hf : (f == "") = true
      · simp only [validate_schema, hof, hf, if_true]
        exact ⟨_, rfl⟩
      · have hff : (f == "") = false := by simpa using hf
        cases hcsv : readCsv f with
        | missing =>
          simp only [validate_schema, hof, hff, Bool.false_eq_true, if_false, hcsv]
          exact ⟨_, rfl⟩
        | unreadable msg =>
          simp only [validate_schema, hof, hff, Bool.false_eq_true, if_false, hcsv]
          exact ⟨_, rfl⟩
        | table df =>
          obtain ⟨errs, herrs⟩ :=
            constraintErrors_ok_of_safe df schema.constraints (h3 schema f df rfl hof hcsv)
          simp only [validate_schema, hof, hff, Bool.false_eq_true, if_false, hcsv, herrs]
          exact ⟨_, rfl⟩

/-- Helper: the integrity check raises only on a malformed baseline file. -/
theorem check_integrity_ok_of (hf : HashesFile) (pre post : Dict)
    (h : hf ≠ .malformed) : ∃ b, check_test_file_integrity hf pre post = .ok b := by
  cases hf with
  | absent => exact ⟨_, rfl⟩
  | malformed => exact absurd rfl h
  | parsed expected => exact ⟨_, rfl⟩

/-- C7 counterexample: a submission whose `expected_schema.json` holds
malformed JSON is a broken submission, yet `verify_submission` raises
(`json.loads` is not wrapped) instead of absorbing the problem into the
result, refuting the claim that a verification call never throws for a
broken submission. -/
theorem c7_counterexample : verify_submission envBadSchema = .error .jsonDecode := rfl

/-- C7 (amended): `verify_submission` absorbs failed checks, timeouts,
missing schema/output files and unreadable output data into the returned
result; it returns normally for every submission whose submission-controlled
JSON files (`expected_schema.json`, `tests_hashes.json`) parse as well-shaped
JSON and whose numeric schema constraints target non-string columns — but a
submission violating those conditions makes the call raise. -/
theorem c7_amended_no_raise (env : Env)
    (h1 : env.schemaFile ≠ .malformed)
    (h2 : env.testsHashesFile ≠ .malformed)
    (h3 : ∀ schema f df, env.schemaFile = .parsed schema → schema.output_file = some f →
      env.readCsv f = .table df → constraintsTypeSafe df schema.constraints = true) :
    ∃ r, verify_submission env = .ok r := by
  obtain ⟨tfu, htfu⟩ := check_integrity_ok_of env.testsHashesFile
    (if env.testDirExists then env.preTestHashes else [])
    (if env.testDirExists then env.postTestHashes else []) h2
  obtain ⟨sv, hsv⟩ := validate_schema_ok_of env.schemaFile env.readCsv h1 h3
  simp only [verify_submission, htfu, hsv]
  exact ⟨_, rfl⟩

/-- C7 witness: the amended theorem applied to `env0`, whose JSON files are
absent (hence trivially well-formed), agreeing with direct evaluation. -/
theorem c7_witness : verify_submission env0 = .ok r0 := by
  obtain ⟨r, hr⟩ := c7_amended_no_raise env0 (by decide) (by decide)
    (fun schema f df h _ _ => SchemaFile.noConfusion h)
  have h0 : verify_submission env0 = .ok r0 := rfl
  exact h0

/-- C10 witness: the skip equation instantiated at `dfC10` and the
constraint on the absent column `zzz`. -/
theorem c10_witness :
    (∀ name, constraintC10.column = some name → dfGet dfC10 name = none) ∧
    constraintErrors dfC10 [constraintC10] = constraintErrors dfC10 [] := by
  have habs : ∀ name, constraintC10.column = some name → dfGet dfC10 name = none := by
    intro name h
    obtain rfl : "zzz" = name := Option.some.inj h
    rfl
  exact ⟨habs, c10_absent_constraint_column_skipped.1 dfC10 constraintC10 [] habs⟩

end PipelineDebugger
